import Mathlib

/-!
Verification of the qudi IPython kernel module (`qudi/core/qudikernel.py`).

The development shallowly embeds the three classes of the module:

* `QudiKernelService`  — connection-lifecycle endpoint owning a background serving thread;
* `QudiKernelClient`   — owner of the single rpyc connection, with `connect`,
  `get_active_modules` and `disconnect`;
* `QudiIPythonKernel`  — the kernel state relevant to namespace reconciliation:
  the live user namespace (`shell.user_ns`, modelled as `String → Option V`) and
  the set of tracked names (`_namespace_qudi_modules`, modelled as a list of names
  whose membership is what matters).

External collaborators (rpyc transport, the remote registry, the Configuration
class) are modelled as explicit parameters or small state records; exceptions
become `Except` or explicit outcome types.
-/

namespace QudiKernel

/-- State of a `QudiIPythonKernel` relevant to reconciliation: the live user
namespace `shell.user_ns` and the tracked-name set `_namespace_qudi_modules`.
The tracked set is represented by a list; only membership is meaningful. -/
structure QudiIPythonKernel (V : Type) where
  user_ns : String → Option V
  namespace_qudi_modules : List String

/-- Key list of a snapshot dictionary (Python: iterating a `dict` yields its keys;
`set(modules)` is the key set). -/
def dict_keys {V : Type} (modules : List (String × V)) : List String :=
  modules.map Prod.fst

/-- The loop `for mod in removed: self.shell.user_ns.pop(mod, None)`: each name in
`removed` is deleted from the namespace; deleting an absent name is a no-op. -/
def pop_names {V : Type} (ns : String → Option V) : List String → (String → Option V)
  | [] => ns
  | mod :: rest => pop_names (fun m => if m = mod then none else ns m) rest

/-- The call `self.shell.push(modules)` (IPython `user_ns.update(modules)`): every
entry of the snapshot is inserted into the namespace, overwriting existing bindings. -/
def push_modules {V : Type} (ns : String → Option V) : List (String × V) → (String → Option V)
  | [] => ns
  | p :: rest => push_modules (fun m => if m = p.1 then some p.2 else ns m) rest

/-- `QudiIPythonKernel.update_module_namespace`, with the snapshot returned by
`self._qudi_client.get_active_modules()` passed in explicitly:

    removed = self._namespace_qudi_modules.difference(modules)
    for mod in removed: self.shell.user_ns.pop(mod, None)
    self.shell.push(modules)
    self._namespace_qudi_modules = set(modules)
-/
def update_module_namespace {V : Type} (st : QudiIPythonKernel V)
    (modules : List (String × V)) : QudiIPythonKernel V :=
  let removed := st.namespace_qudi_modules.filter (fun n => !(dict_keys modules).contains n)
  let ns1 := pop_names st.user_ns removed
  let ns2 := push_modules ns1 modules
  { user_ns := ns2, namespace_qudi_modules := dict_keys modules }

/-- The binding a `dict.update`-style pass over `modules` leaves at key `m`:
the value of the last pair with key `m`, if any. -/
def last_lookup {V : Type} : List (String × V) → String → Option V
  | [], _ => none
  | p :: rest, m =>
    match last_lookup rest m with
    | some v => some v
    | none => if m = p.1 then some p.2 else none

/-- `super().do_execute` runs one cell of user code, which may mutate the user
namespace but not the kernel-internal tracked set.  `do_execute` first calls
`update_module_namespace` and then hands off to the execution engine. -/
def do_execute {V : Type} (st : QudiIPythonKernel V) (modules : List (String × V))
    (run_cell : (String → Option V) → (String → Option V)) : QudiIPythonKernel V :=
  let st' := update_module_namespace st modules
  { st' with user_ns := run_cell st'.user_ns }

theorem pop_names_apply {V : Type} (removed : List String) (ns : String → Option V)
    (m : String) :
    pop_names ns removed m = if m ∈ removed then none else ns m := by
  induction removed generalizing ns with
  | nil => simp [pop_names]
  | cons a rest ih =>
    simp only [pop_names, ih, List.mem_cons]
    by_cases hm : m ∈ rest
    · simp [hm]
    · by_cases ha : m = a <;> simp [hm, ha]

theorem push_modules_apply {V : Type} (modules : List (String × V))
    (ns : String → Option V) (m : String) :
    push_modules ns modules m =
      match last_lookup modules m with
      | some v => some v
      | none => ns m := by
  induction modules generalizing ns with
  | nil => simp [push_modules, last_lookup]
  | cons p rest ih =>
    simp only [push_modules, last_lookup, ih]
    cases last_lookup rest m with
    | some v => rfl
    | none =>
      by_cases hp : m = p.1 <;> simp [hp]

theorem dict_keys_cons {V : Type} (p : String × V) (rest : List (String × V)) :
    dict_keys (p :: rest) = p.1 :: dict_keys rest := rfl

theorem last_lookup_none_iff {V : Type} (modules : List (String × V)) (m : String) :
    last_lookup modules m = none ↔ m ∉ dict_keys modules := by
  induction modules with
  | nil => simp [last_lookup, dict_keys]
  | cons p rest ih =>
    simp only [last_lookup, dict_keys_cons, List.mem_cons]
    cases h : last_lookup rest m with
    | some v =>
      have hmem : m ∈ dict_keys rest := by
        by_contra hc
        have hn := ih.mpr hc
        rw [hn] at h
        exact Option.noConfusion h
      simp [hmem]
    | none =>
      have hmem : m ∉ dict_keys rest := ih.mp h
      by_cases hp : m = p.1 <;> simp [hp, hmem]

theorem update_module_namespace_apply {V : Type} (st : QudiIPythonKernel V)
    (modules : List (String × V)) (m : String) :
    (update_module_namespace st modules).user_ns m =
      match last_lookup modules m with
      | some v => some v
      | none =>
        if m ∈ st.namespace_qudi_modules then none else st.user_ns m := by
  simp only [update_module_namespace, push_modules_apply, pop_names_apply]
  cases h : last_lookup modules m with
  | some v => rfl
  | none =>
    have hkeys : m ∉ dict_keys modules := (last_lookup_none_iff modules m).mp h
    by_cases ht : m ∈ st.namespace_qudi_modules
    · simp [List.mem_filter, ht, hkeys]
    · simp [List.mem_filter, ht]

theorem update_module_namespace_tracked {V : Type} (st : QudiIPythonKernel V)
    (modules : List (String × V)) :
    (update_module_namespace st modules).namespace_qudi_modules = dict_keys modules := rfl

theorem QudiIPythonKernel.ext_state {V : Type} {a b : QudiIPythonKernel V}
    (h1 : ∀ m, a.user_ns m = b.user_ns m)
    (h2 : a.namespace_qudi_modules = b.namespace_qudi_modules) : a = b := by
  cases a; cases b
  simp only [QudiIPythonKernel.mk.injEq]
  exact ⟨funext h1, h2⟩

/-- Concrete live namespace for the spec scenario: a=1, b=2, c=3, nothing else. -/
def scenario_ns : String → Option Nat := fun m =>
  if m = "a" then some 1 else if m = "b" then some 2 else if m = "c" then some 3 else none

/-- Kernel state for the spec scenario: TrackedNameSet = {"a","b"}, namespace a=1,b=2,c=3. -/
def scenario_st : QudiIPythonKernel Nat :=
  { user_ns := scenario_ns, namespace_qudi_modules := ["a", "b"] }

/-- Snapshot {"b": 20, "d": 40} for the spec scenario. -/
def scenario_snapshot : List (String × Nat) := [("b", 20), ("d", 40)]

/-- C1: with TrackedNameSet = {"a","b"} and live namespace a=1, b=2, c=3, reconciling
against the snapshot {"b": 20, "d": 40} leaves b=20, c=3, d=40, removes a, and sets
TrackedNameSet = {"b","d"}. -/
theorem update_module_namespace_scenario :
    (update_module_namespace scenario_st scenario_snapshot).user_ns "a" = none ∧
    (update_module_namespace scenario_st scenario_snapshot).user_ns "b" = some 20 ∧
    (update_module_namespace scenario_st scenario_snapshot).user_ns "c" = some 3 ∧
    (update_module_namespace scenario_st scenario_snapshot).user_ns "d" = some 40 ∧
    (update_module_namespace scenario_st scenario_snapshot).namespace_qudi_modules
      = ["b", "d"] := by
  refine ⟨?_, ?_, ?_, ?_, rfl⟩ <;> decide

/-- C2: after one reconciliation pass against snapshot S, the tracked-name set equals
exactly the key set of S, whatever the prior tracked set and namespace were; the
execution hook `do_execute` (reconcile, then run the cell) also leaves the tracked
set equal to the key set of the snapshot it obtained, since cell execution mutates
only the user namespace. -/
theorem tracked_set_invariant {V : Type} (st : QudiIPythonKernel V)
    (modules : List (String × V)) :
    ((∀ n, n ∈ (update_module_namespace st modules).namespace_qudi_modules ↔
        n ∈ dict_keys modules) ∧
      ∀ run_cell, (do_execute st modules run_cell).namespace_qudi_modules
        = dict_keys modules) := by
  exact ⟨fun n => Iff.rfl, fun _ => rfl⟩

/-- C3: reconciliation is idempotent — running `update_module_namespace` twice in a
row against the same snapshot yields exactly the state after running it once. -/
theorem update_module_namespace_idem {V : Type} (st : QudiIPythonKernel V)
    (modules : List (String × V)) :
    update_module_namespace (update_module_namespace st modules) modules
      = update_module_namespace st modules := by
  apply QudiIPythonKernel.ext_state
  · intro m
    rw [update_module_namespace_apply, update_module_namespace_apply]
    cases h : last_lookup modules m with
    | some v => rfl
    | none =>
      have hkeys : m ∉ dict_keys modules := (last_lookup_none_iff modules m).mp h
      simp only [update_module_namespace_tracked]
      rw [if_neg hkeys]
  · rfl

/-- C4: reconciling against the empty snapshot removes every tracked name from the
live namespace, empties the tracked set, and leaves every binding outside the prior
tracked set unchanged. -/
theorem update_module_namespace_empty {V : Type} (st : QudiIPythonKernel V)
    (_hne : st.namespace_qudi_modules ≠ []) :
    ((∀ n, n ∈ st.namespace_qudi_modules →
        (update_module_namespace st ([] : List (String × V))).user_ns n = none) ∧
      (update_module_namespace st ([] : List (String × V))).namespace_qudi_modules = [] ∧
      ∀ n, n ∉ st.namespace_qudi_modules →
        (update_module_namespace st ([] : List (String × V))).user_ns n
          = st.user_ns n) := by
  refine ⟨fun n hn => ?_, rfl, fun n hn => ?_⟩
  · rw [update_module_namespace_apply]
    simp [last_lookup, hn]
  · rw [update_module_namespace_apply]
    simp [last_lookup, hn]

/-- Witness for C4 at the concrete scenario state with the empty snapshot: the
tracked name "a" is removed and the tracked set becomes empty. -/
theorem update_module_namespace_empty_witness :
    (update_module_namespace scenario_st ([] : List (String × Nat))).user_ns "a" = none ∧
    (update_module_namespace scenario_st
      ([] : List (String × Nat))).namespace_qudi_modules = [] := by
  have h := update_module_namespace_empty scenario_st (by decide)
  exact ⟨h.1 "a" (by decide), h.2.1⟩

/-- An `rpyc.BgServingThread`; `stop_fails` records whether its `stop()` call raises. -/
structure BgServingThread where
  stop_fails : Bool
deriving DecidableEq

/-- State of a `QudiKernelService`: the `_background_server` attribute, `none` when no
background serving thread is held. -/
structure QudiKernelService where
  background_server : Option BgServingThread
deriving DecidableEq

/-- Outcome of attempting `self._background_server.stop()`. -/
inductive StopResult where
  | ok
  | raised
deriving DecidableEq

/-- The raw attempt `self._background_server.stop()`: raises (`AttributeError`) when the
reference is `None`, raises when the thread's `stop()` itself fails, succeeds otherwise. -/
def bg_stop : Option BgServingThread → StopResult
  | none => .raised
  | some bg => if bg.stop_fails then .raised else .ok

/-- `QudiKernelService.__init__`: the background-server reference starts out `None`. -/
def QudiKernelService.init : QudiKernelService :=
  { background_server := none }

/-- `QudiKernelService.on_connect`: starts one background serving thread bound to the
connection and stores it. -/
def on_connect (_s : QudiKernelService) (bg : BgServingThread) : QudiKernelService :=
  { background_server := some bg }

/-- `QudiKernelService.on_disconnect`:

    try: self._background_server.stop()
    except: pass
    finally: self._background_server = None

Any outcome of the stop attempt is swallowed; the reference is always cleared. -/
def on_disconnect (s : QudiKernelService) : QudiKernelService :=
  match bg_stop s.background_server with
  | .ok => { background_server := none }
  | .raised => { background_server := none }

/-- An rpyc connection as seen by the client: its `closed` flag and whether `close()`
raises when called. -/
structure Conn where
  closed : Bool
  close_fails : Bool
deriving DecidableEq

/-- State of a `QudiKernelClient`: its service instance and its `connection` attribute
(`None` when absent). -/
structure QudiKernelClient (V : Type) where
  service_instance : QudiKernelService
  connection : Option Conn

/-- `QudiKernelClient.__init__`: fresh service instance, no connection. -/
def QudiKernelClient.init (V : Type) : QudiKernelClient V :=
  { service_instance := QudiKernelService.init, connection := none }

/-- Outcome of `self.connection.close()`. -/
inductive CloseResult where
  | ok
  | raised
deriving DecidableEq

/-- The raw `conn.close()` call, which may raise. -/
def conn_close (conn : Conn) : CloseResult :=
  if conn.close_fails then .raised else .ok

/-- `QudiKernelClient.disconnect`:

    if self.connection is not None:
        try: self.connection.close()
        except: pass
        finally: self.connection = None
-/
def disconnect {V : Type} (c : QudiKernelClient V) : QudiKernelClient V :=
  match c.connection with
  | none => c
  | some conn =>
    match conn_close conn with
    | .ok => { c with connection := none }
    | .raised => { c with connection := none }

/-- Behaviour of the remote query `self.connection.root.get_namespace_dict()` on one
call: it returns a snapshot, raises `ConnectionError`, raises `EOFError`, or raises
an exception of any other kind (carrying a message). -/
inductive RemoteOutcome (V : Type) where
  | ok (modules : List (String × V))
  | connectionError
  | eofError
  | other (msg : String)

/-- `QudiKernelClient.get_active_modules`, with the behaviour of the remote query
passed in explicitly; returns the dictionary (or the uncaught exception) together
with the client state after the call:

    if self.connection is None or self.connection.closed: return dict()
    try: return self.connection.root.get_namespace_dict()
    except (ConnectionError, EOFError):
        self.disconnect()
        return dict()
-/
def get_active_modules {V : Type} (c : QudiKernelClient V) (remote : RemoteOutcome V) :
    Except String (List (String × V)) × QudiKernelClient V :=
  match c.connection with
  | none => (Except.ok [], c)
  | some conn =>
    if conn.closed then (Except.ok [], c)
    else
      match remote with
      | .ok modules => (Except.ok modules, c)
      | .connectionError => (Except.ok [], disconnect c)
      | .eofError => (Except.ok [], disconnect c)
      | .other msg => (Except.error msg, c)

/-- C7: `disconnect` is unconditionally successful and idempotent — for every client
state (connection present, close failing or not, or no connection at all) it leaves
the client with no connection, touches nothing else, and a repeated call changes
nothing.  Totality of `disconnect` reflects that every `close()` outcome, including
`CloseResult.raised`, is swallowed by the bare `except`. -/
theorem disconnect_safe {V : Type} (c : QudiKernelClient V) :
    ((disconnect c).connection = none ∧
      (disconnect c).service_instance = c.service_instance ∧
      disconnect (disconnect c) = disconnect c) := by
  match h : c.connection with
  | none =>
    cases c
    simp_all [disconnect]
  | some conn =>
    cases c
    cases hc : conn_close conn <;> simp_all [disconnect]

/-- C6: when the client holds no connection, or the connection it holds is marked
closed, `get_active_modules` returns an empty mapping at once, raising nothing,
with the client state untouched — independently of what the remote query would do,
since no remote call is issued. -/
theorem get_active_modules_no_link {V : Type} (c : QudiKernelClient V)
    (h : c.connection = none ∨ ∃ conn, c.connection = some conn ∧ conn.closed = true) :
    ∀ remote : RemoteOutcome V, get_active_modules c remote = (Except.ok [], c) := by
  intro remote
  rcases h with h | ⟨conn, hc, hclosed⟩
  · simp [get_active_modules, h]
  · simp [get_active_modules, hc, hclosed]

/-- Witness for C6: a freshly constructed client has no connection, and the query
returns the empty dictionary unchanged even when the remote side would raise. -/
theorem get_active_modules_no_link_witness :
    get_active_modules (QudiKernelClient.init Nat) (RemoteOutcome.other "boom")
      = (Except.ok [], QudiKernelClient.init Nat) :=
  get_active_modules_no_link (QudiKernelClient.init Nat) (Or.inl rfl)
    (RemoteOutcome.other "boom")

/-- C5: with a live (present, not closed) connection, a remote query that raises a
connection error or an end-of-stream error makes `get_active_modules` return an
empty mapping and drop the connection (via `disconnect`), after which a further
`disconnect` is a no-op; a remote failure of any other kind propagates uncaught and
leaves the client state unchanged. -/
theorem get_active_modules_connection_loss {V : Type} (c : QudiKernelClient V)
    (conn : Conn) (hc : c.connection = some conn) (hop : conn.closed = false) :
    ((get_active_modules c RemoteOutcome.connectionError = (Except.ok [], disconnect c) ∧
      get_active_modules c (RemoteOutcome.eofError : RemoteOutcome V)
        = (Except.ok [], disconnect c) ∧
      (disconnect c).connection = none ∧
      disconnect (disconnect c) = disconnect c) ∧
      ∀ msg, get_active_modules c (RemoteOutcome.other msg : RemoteOutcome V)
        = (Except.error msg, c)) := by
  have hd := disconnect_safe c
  refine ⟨⟨?_, ?_, hd.1, hd.2.2⟩, fun msg => ?_⟩ <;>
    simp [get_active_modules, hc, hop]

/-- Witness for C5 at a concrete client with a live connection: the connection-error
path returns the empty dictionary paired with the disconnected client. -/
theorem get_active_modules_connection_loss_witness :
    get_active_modules
        { service_instance := QudiKernelService.init,
          connection := some { closed := false, close_fails := false } }
        (RemoteOutcome.connectionError : RemoteOutcome Nat)
      = (Except.ok [],
          disconnect
            { service_instance := QudiKernelService.init,
              connection := some { closed := false, close_fails := false } }) :=
  (get_active_modules_connection_loss
    { service_instance := QudiKernelService.init,
      connection := some { closed := false, close_fails := false } }
    { closed := false, close_fails := false } rfl rfl).1.1

/-- Modelled from the spec: the external `Configuration` collaborator
(`qudi.core.config`, not part of the reviewed sources).  It supplies
`get_saved_config` (a previously saved configuration location, which may be
absent), `get_default_config` (a default location, always present), and
`load_config(file_path, set_default)` which reads the configuration at
`file_path` — in particular its `namespace_server_port` field, modelled by
`port_at` — and updates the globally persisted active-configuration marker only
when `set_default` is true. -/
structure ConfigEnv where
  saved_config : Option String
  default_config : String
  port_at : String → Nat
  active_config_marker : Option String

/-- A loaded `Configuration` object: only its `namespace_server_port` field matters
to `connect`. -/
structure Configuration where
  namespace_server_port : Nat
deriving DecidableEq

/-- Modelled from the spec: `Configuration.load_config(file_path, set_default)` —
returns the configuration read from `file_path` and the (possibly updated)
persistent state; with `set_default = false` the active-configuration marker is
left untouched. -/
def load_config (env : ConfigEnv) (file_path : String) (set_default : Bool) :
    Configuration × ConfigEnv :=
  ({ namespace_server_port := env.port_at file_path },
   if set_default then { env with active_config_marker := some file_path } else env)

/-- `QudiKernelClient.connect`, with the rpyc connection constructor passed in
explicitly (it may fail, and its failure is not caught):

    config_path = Configuration.get_saved_config()
    if config_path is None: config_path = Configuration.get_default_config()
    config.load_config(file_path=config_path, set_default=False)
    port = config.namespace_server_port
    self.connection = rpyc.connect(host='localhost', port=port, ...)
-/
def connect {V : Type} (env : ConfigEnv) (c : QudiKernelClient V)
    (rpyc_connect : String → Nat → Except String Conn) :
    Except String (QudiKernelClient V × ConfigEnv) :=
  let config_path :=
    match env.saved_config with
    | none => env.default_config
    | some p => p
  let loaded := load_config env config_path false
  match rpyc_connect "localhost" loaded.1.namespace_server_port with
  | Except.error e => Except.error e
  | Except.ok conn => Except.ok ({ c with connection := some conn }, loaded.2)

/-- C8: `connect` resolves the configuration location to the saved one when present
and the default one otherwise, loads it without touching the persisted
active-configuration marker (`set_default = false`), and connects to localhost at
the port read from that location; on success the client holds exactly the
connection the transport produced and the persistent configuration state is
unchanged, and a transport failure propagates uncaught. -/
theorem connect_resolves_endpoint {V : Type} (env : ConfigEnv) (c : QudiKernelClient V)
    (rpyc_connect : String → Nat → Except String Conn) (path : String)
    (hpath : env.saved_config = some path ∨
      (env.saved_config = none ∧ path = env.default_config)) :
    ((∀ conn, rpyc_connect "localhost" (env.port_at path) = Except.ok conn →
        connect env c rpyc_connect
          = Except.ok ({ c with connection := some conn }, env)) ∧
      (∀ e, rpyc_connect "localhost" (env.port_at path) = Except.error e →
        connect env c rpyc_connect = Except.error e) ∧
      ∀ c' env', connect env c rpyc_connect = Except.ok (c', env') →
        env'.active_config_marker = env.active_config_marker) := by
  have hres : (match env.saved_config with
      | none => env.default_config
      | some p => p) = path := by
    rcases hpath with h | ⟨h, hp⟩
    · simp [h]
    · simp [h, hp]
  refine ⟨fun conn hok => ?_, fun e herr => ?_, fun c' env' hok => ?_⟩
  · simp [connect, hres, load_config, hok]
  · simp [connect, hres, load_config, herr]
  · revert hok
    simp only [connect, hres, load_config]
    cases rpyc_connect "localhost" (env.port_at path) with
    | error e => intro hok; exact absurd hok (by simp)
    | ok conn =>
      intro hok
      simp only [Except.ok.injEq, Prod.mk.injEq] at hok
      rw [← hok.2]
      simp

/-- Witness for C8: with no saved configuration, a default location, and a transport
that accepts the call, `connect` yields the client holding the new connection and
the configuration state unchanged. -/
theorem connect_resolves_endpoint_witness :
    connect
        { saved_config := none, default_config := "default.cfg",
          port_at := fun _ => 18861, active_config_marker := none }
        (QudiKernelClient.init Nat)
        (fun _ _ => Except.ok { closed := false, close_fails := false })
      = Except.ok
          ({ QudiKernelClient.init Nat with
              connection := some { closed := false, close_fails := false } },
            { saved_config := none, default_config := "default.cfg",
              port_at := fun _ => 18861, active_config_marker := none }) :=
  (connect_resolves_endpoint
    { saved_config := none, default_config := "default.cfg",
      port_at := fun _ => 18861, active_config_marker := none }
    (QudiKernelClient.init Nat)
    (fun _ _ => Except.ok { closed := false, close_fails := false })
    "default.cfg" (Or.inr ⟨rfl, rfl⟩)).1
    { closed := false, close_fails := false } rfl

/-- C9: when a background receiver is held, `on_disconnect` clears the reference
whatever the stop attempt does — in particular, when the receiver's `stop()`
raises, the error is swallowed (the stop attempt evaluates to `raised`, yet
`on_disconnect` still returns normally with the reference cleared). -/
theorem on_disconnect_clears_receiver (s : QudiKernelService) (bg : BgServingThread)
    (h : s.background_server = some bg) :
    ((bg.stop_fails = true → bg_stop s.background_server = StopResult.raised) ∧
      (on_disconnect s).background_server = none) := by
  constructor
  · intro hf
    simp [bg_stop, h, hf]
  · cases hs : bg_stop s.background_server <;> simp [on_disconnect, hs]

/-- Witness for C9 at a service holding a receiver whose `stop()` raises: the
reference is still cleared. -/
theorem on_disconnect_clears_receiver_witness :
    (on_disconnect { background_server := some { stop_fails := true } }).background_server
      = none :=
  (on_disconnect_clears_receiver
    { background_server := some { stop_fails := true } } { stop_fails := true } rfl).2

/-- C10: on a freshly constructed service (`background_server = None`), the stop
attempt inside `on_disconnect` raises (`None` has no `stop()`), but the bare
`except` swallows it: `on_disconnect` returns normally and leaves the reference
`None`. -/
theorem on_disconnect_fresh_service :
    (bg_stop QudiKernelService.init.background_server = StopResult.raised ∧
      on_disconnect QudiKernelService.init = QudiKernelService.init) := by
  exact ⟨rfl, rfl⟩
